import Mathlib

/-!
Verification of the diagnostic script `mcp-workflow-deploy.py`.

The script is linear: it prints a banner, builds a hard-coded workflow
payload (never used afterwards), launches a subprocess with a 30-second
timeout, classifies the captured output by scanning for the "✅" marker,
and always finishes by printing a fixed "Next Steps" checklist before
exiting normally.

We embed the script as a pure function from the subprocess outcome to the
sequence of printed lines (one list element per `print` call) together
with the process exit status.
-/

/-- Substring test on character lists: `leads n h` is true iff `n` is an
initial segment of `h` (used to model Python's `in` operator on strings). -/
def leads : List Char → List Char → Bool
  | [], _ => true
  | _ :: _, [] => false
  | a :: as, b :: bs => a == b && leads as bs

/-- `occursIn n h` is true iff `n` occurs contiguously somewhere in `h`. -/
def occursIn : List Char → List Char → Bool
  | n, [] => n.isEmpty
  | n, c :: t => leads n (c :: t) || occursIn n t

/-- Model of Python's `needle in haystack` substring test on strings. -/
def strOccurs (needle haystack : String) : Bool :=
  occursIn needle.toList haystack.toList

/-- A node descriptor of the hard-coded workflow payload
(`src/mcp-workflow-deploy.py` lines 13-21 and 22-39): a name, a type tag,
an ordered key-value parameter mapping, and an integer layout position. -/
structure NodeSpec where
  name : String
  type : String
  parameters : List (String × String)
  position : Int × Int
deriving DecidableEq

/-- The workflow payload record built at lines 9-41 of the script. -/
structure WorkflowDefinition where
  name : String
  description : String
  nodes : List NodeSpec
deriving DecidableEq

/-- The inline JavaScript snippet stored (as an opaque string) in the
`code` parameter of the second node (source lines 26-36). -/
def mcpAnalysisCode : String :=
  "\nconst data = $json.body || $json;\nreturn \x7b\n  asset_id: data.id,\n  content_type: data.content_type || \x27single_image\x27,\n  owner: data.owner,\n  mcp_processed: true,\n  quality_score: Math.floor(Math.random() * 100),\n  processed_at: new Date().toISOString()\n\x7d;\n"

/-- The literal `workflow_data` payload constructed at lines 9-41.
It is built once and never read by any later step of the script. -/
def workflow_data : WorkflowDefinition :=
  { name := "MCP Enhanced Content Pipeline"
    description := "Content processing with MCP enhancements"
    nodes :=
      [ { name := "Content Webhook"
          type := "webhook"
          parameters := [("httpMethod", "POST"), ("path", "content-pipeline")]
          position := (240, 300) }
      , { name := "MCP Analysis"
          type := "function"
          parameters := [("code", mcpAnalysisCode)]
          position := (460, 300) } ] }

/-- Result of the `subprocess.run(cmd, capture_output=True, text=True,
timeout=30)` call at line 85, as observed by the script: either the
subprocess completed (captured stdout, stderr and return code), or
`subprocess.TimeoutExpired` was raised, or some other exception carrying
a message was raised. -/
inductive ProbeOutcome where
  | completed (stdout stderr : String) (returncode : Int)
  | timeout
  | exc (msg : String)
deriving DecidableEq

/-- How the launched subprocess behaves, before the timeout is applied:
it either finishes after `elapsed` time units with captured output, or
the launch raises a non-timeout exception with a message. -/
inductive SubprocessBehavior where
  | finishes (elapsed : Nat) (stdout stderr : String) (returncode : Int)
  | raises (msg : String)
deriving DecidableEq

/-- The timeout (in seconds) passed to `subprocess.run` at line 85. -/
def probeTimeout : Nat := 30

/-- Modelled from the spec: the `subprocess` library itself is outside
the repository; per the spec, the launch blocks for at most the fixed
timeout, after which it is abandoned and the timeout condition is raised,
while a completion within the timeout yields the captured output and any
other raised error is surfaced as a generic exception. -/
def subprocessRun (limit : Nat) (b : SubprocessBehavior) : ProbeOutcome :=
  match b with
  | .finishes elapsed out err code =>
      if elapsed ≤ limit then .completed out err code else .timeout
  | .raises msg => .exc msg

/-- Banner printed at line 6. -/
def headerLine : String := "🚀 MCP Workflow Deployment via Configured Container"

/-- Line printed at line 45, inside the `try` block. -/
def attemptLine : String := "📋 Attempting MCP workflow creation..."

/-- Line printed at line 87 before echoing the captured stdout. -/
def outputHeaderLine : String := "📊 MCP Container Output:"

/-- Line printed at line 91 when the captured stderr is non-empty. -/
def errHeaderLine : String := "⚠️ Errors:"

/-- First "configured" confirmation line (line 96). -/
def configuredLine1 : String := "🎉 MCP is properly configured!"

/-- Second "configured" confirmation line (line 97). -/
def configuredLine2 : String := "✅ The N8N-MCP integration is working"

/-- Third "configured" confirmation line (line 98). -/
def configuredLine3 : String := "🚀 Ready for direct workflow deployment through MCP tools"

/-- The "needs adjustment" line (line 100). -/
def adjustLine : String := "🔧 MCP configuration may need adjustment"

/-- The timeout message (line 103). -/
def timeoutLine : String := "⏰ MCP test timed out"

/-- The generic error message (line 105): `f"💥 Error: {e}"`. -/
def errorLine (msg : String) : String := "💥 Error: " ++ msg

/-- The success marker scanned for at line 95. -/
def checkMark : String := "✅"

/-- The classification step (lines 94-100): if the captured stdout
contains the marker "✅" the three "configured" confirmation lines are
printed, otherwise the single "needs adjustment" line is printed.
This block is the printed summary of the probe. -/
def classification (stdout : String) : List String :=
  if strOccurs checkMark stdout then
    [configuredLine1, configuredLine2, configuredLine3]
  else
    [adjustLine]

/-- The three numbered checklist lines printed at lines 108-110. -/
def checklistLines : List String :=
  [ "1. MCP container is configured with N8N API access"
  , "2. Use MCP tools for workflow management"
  , "3. Test workflow deployment via MCP" ]

/-- The closing block printed at lines 107-110: the "Next Steps" heading
(printed with a leading blank line) followed by the three checklist lines. -/
def nextStepsLines : List String := "\n📋 Next Steps:" :: checklistLines

/-- The lines printed by the `try`/`except` region (lines 44-105), as a
function of the subprocess outcome: on completion the stdout is echoed,
the stderr block is printed only when stderr is non-empty, and the
classification summary follows; a timeout prints only the timeout
message; any other exception prints only the `💥 Error:` line. -/
def tryBlockLines (o : ProbeOutcome) : List String :=
  attemptLine ::
    match o with
    | .completed out err _code =>
        [outputHeaderLine, out]
          ++ (if err = "" then [] else [errHeaderLine, err])
          ++ classification out
    | .timeout => [timeoutLine]
    | .exc msg => [errorLine msg]

/-- The whole run of the script, threading the payload built at lines
9-41 explicitly (the script builds `workflow_data` after printing the
banner and never reads it again). Returns the list of printed lines, in
order, paired with the exit status; the script never sets an exit status,
so it ends with status 0 on every path. -/
def scriptRun (w : WorkflowDefinition) (o : ProbeOutcome) : List String × Nat :=
  let _payload := w
  (headerLine :: (tryBlockLines o ++ nextStepsLines), 0)

/-- The lines printed by the actual script (which builds `workflow_data`). -/
def scriptLines (o : ProbeOutcome) : List String :=
  (scriptRun workflow_data o).1

/-- The exit status of the actual script. -/
def scriptExit (o : ProbeOutcome) : Nat :=
  (scriptRun workflow_data o).2

example : strOccurs "✅" "abc ✅ def" = true := by decide
example : strOccurs "✅" "❌ MCP container API access issue" = false := by decide
example : scriptLines .timeout =
    [headerLine, attemptLine, timeoutLine] ++ nextStepsLines := by decide

/-- Modelled from the spec: a JSON value tree. The script never
serializes `workflow_data` (the construction is dead); the spec's §8 item
6 nevertheless requires the build → serialize → parse round-trip to be
lossless, so serialization is modelled here. -/
inductive JValue where
  | jstr (s : String)
  | jnum (n : Int)
  | jarr (elems : List JValue)
  | jobj (fields : List (String × JValue))

/-- Extract a JSON string payload. -/
def JValue.asStr : JValue → Option String
  | .jstr s => some s
  | _ => none

/-- Extract a JSON number payload. -/
def JValue.asNum : JValue → Option Int
  | .jnum n => some n
  | _ => none

/-- Look up a field of a JSON object by key (first match wins, as in a
Python dict whose keys are unique). -/
def lookupField : List (String × JValue) → String → Option JValue
  | [], _ => none
  | (k, v) :: rest, key => if k = key then some v else lookupField rest key

/-- Modelled from the spec: serialize a node descriptor, mirroring the
dict literal shape of source lines 13-21 / 22-39. -/
def NodeSpec.toJson (n : NodeSpec) : JValue :=
  .jobj
    [ ("name", .jstr n.name)
    , ("type", .jstr n.type)
    , ("parameters", .jobj (n.parameters.map fun p => (p.1, JValue.jstr p.2)))
    , ("position", .jarr [.jnum n.position.1, .jnum n.position.2]) ]

/-- Modelled from the spec: serialize the workflow payload. -/
def WorkflowDefinition.toJson (w : WorkflowDefinition) : JValue :=
  .jobj
    [ ("name", .jstr w.name)
    , ("description", .jstr w.description)
    , ("nodes", .jarr (w.nodes.map NodeSpec.toJson)) ]

/-- Parse one parameter entry back from JSON. -/
def paramFromJson (p : String × JValue) : Option (String × String) := do
  let s ← p.2.asStr
  pure (p.1, s)

/-- Modelled from the spec: parse a node descriptor back from JSON. -/
def NodeSpec.fromJson (j : JValue) : Option NodeSpec :=
  match j with
  | .jobj fields => do
      let name ← (← lookupField fields "name").asStr
      let ty ← (← lookupField fields "type").asStr
      let params ←
        match (← lookupField fields "parameters") with
        | .jobj ps => ps.mapM paramFromJson
        | _ => none
      let pos ←
        match (← lookupField fields "position") with
        | .jarr [x, y] => do
            let a ← x.asNum
            let b ← y.asNum
            pure (a, b)
        | _ => none
      pure { name := name, type := ty, parameters := params, position := pos }
  | _ => none

/-- Modelled from the spec: parse the workflow payload back from JSON. -/
def WorkflowDefinition.fromJson (j : JValue) : Option WorkflowDefinition :=
  match j with
  | .jobj fields => do
      let name ← (← lookupField fields "name").asStr
      let descr ← (← lookupField fields "description").asStr
      let nodes ←
        match (← lookupField fields "nodes") with
        | .jarr elems => elems.mapM NodeSpec.fromJson
        | _ => none
      pure { name := name, description := descr, nodes := nodes }
  | _ => none

theorem leads_self (n : List Char) : leads n n = true := by
  induction n with
  | nil => rfl
  | cons a as ih => simp [leads, ih]

theorem occursIn_append_self (pre n : List Char) : occursIn n (pre ++ n) = true := by
  induction pre with
  | nil =>
      cases n with
      | nil => rfl
      | cons c t => simp [occursIn, leads_self]
  | cons p ps ih => simp [occursIn, ih]

theorem strOccurs_errorLine (msg : String) : strOccurs msg (errorLine msg) = true := by
  show occursIn msg.toList (errorLine msg).toList = true
  have h : (errorLine msg).toList = "💥 Error: ".toList ++ msg.toList := rfl
  rw [h]
  exact occursIn_append_self _ _

theorem errorLine_head (msg : String) : (errorLine msg).data.head? = some '💥' := rfl

theorem errorLine_ne (msg c : String) (hc : c.data.head? ≠ some '💥') :
    errorLine msg ≠ c := fun h => hc (h ▸ errorLine_head msg)

theorem notMem_errorList (msg c : String) (hc : c.data.head? ≠ some '💥')
    (h1 : c ≠ headerLine) (h2 : c ≠ attemptLine) (h3 : c ∉ nextStepsLines) :
    c ∉ headerLine :: attemptLine :: errorLine msg :: nextStepsLines := by
  intro h
  rcases List.mem_cons.mp h with h | h
  · exact h1 h
  rcases List.mem_cons.mp h with h | h
  · exact h2 h
  rcases List.mem_cons.mp h with h | h
  · exact errorLine_ne msg c hc h.symm
  exact h3 h

/-- Claim C1: for every run in which the subprocess completes within the
timeout and its captured standard output contains the success marker "✅",
the printed summary (the classification block of lines 95-100) consists of
exactly the three "configured" confirmation lines, each of which appears in
the printed output, and the summary does not include the "needs adjustment"
line. -/
theorem claim_C1_success_summary (t : Nat) (out err : String) (code : Int)
    (hT : t ≤ probeTimeout) (hMark : strOccurs checkMark out = true) :
    classification out = [configuredLine1, configuredLine2, configuredLine3] ∧
    configuredLine1 ∈ scriptLines (subprocessRun probeTimeout (.finishes t out err code)) ∧
    configuredLine2 ∈ scriptLines (subprocessRun probeTimeout (.finishes t out err code)) ∧
    configuredLine3 ∈ scriptLines (subprocessRun probeTimeout (.finishes t out err code)) ∧
    adjustLine ∉ classification out := by
  have hrun : subprocessRun probeTimeout (.finishes t out err code) =
      .completed out err code := by
    simp [subprocessRun, hT]
  have hcls : classification out = [configuredLine1, configuredLine2, configuredLine3] := by
    simp [classification, hMark]
  refine ⟨hcls, ?_, ?_, ?_, ?_⟩
  · rw [hrun]; simp [scriptLines, scriptRun, tryBlockLines, hcls]
  · rw [hrun]; simp [scriptLines, scriptRun, tryBlockLines, hcls]
  · rw [hrun]; simp [scriptLines, scriptRun, tryBlockLines, hcls]
  · rw [hcls]; decide

/-- Concrete witness for claim C1, instantiated at the stdout the inner
script actually emits on success. -/
theorem claim_C1_witness :
    classification "✅ MCP container can access N8N API!" =
      [configuredLine1, configuredLine2, configuredLine3] ∧
    configuredLine1 ∈ scriptLines (subprocessRun probeTimeout
      (.finishes 1 "✅ MCP container can access N8N API!" "" 0)) ∧
    configuredLine2 ∈ scriptLines (subprocessRun probeTimeout
      (.finishes 1 "✅ MCP container can access N8N API!" "" 0)) ∧
    configuredLine3 ∈ scriptLines (subprocessRun probeTimeout
      (.finishes 1 "✅ MCP container can access N8N API!" "" 0)) ∧
    adjustLine ∉ classification "✅ MCP container can access N8N API!" :=
  claim_C1_success_summary 1 "✅ MCP container can access N8N API!" "" 0
    (by decide) (by decide)

/-- Claim C2: for every run in which the subprocess completes within the
timeout and its captured standard output does not contain "✅", the printed
summary (the classification block of lines 95-100) is exactly the "needs
adjustment" line, which appears in the printed output, and the summary
omits all three "configured" confirmation lines. -/
theorem claim_C2_adjustment_summary (t : Nat) (out err : String) (code : Int)
    (hT : t ≤ probeTimeout) (hMark : strOccurs checkMark out = false) :
    classification out = [adjustLine] ∧
    adjustLine ∈ scriptLines (subprocessRun probeTimeout (.finishes t out err code)) ∧
    configuredLine1 ∉ classification out ∧
    configuredLine2 ∉ classification out ∧
    configuredLine3 ∉ classification out := by
  have hrun : subprocessRun probeTimeout (.finishes t out err code) =
      .completed out err code := by
    simp [subprocessRun, hT]
  have hcls : classification out = [adjustLine] := by
    simp [classification, hMark]
  refine ⟨hcls, ?_, ?_, ?_, ?_⟩
  · rw [hrun]; simp [scriptLines, scriptRun, tryBlockLines, hcls]
  · rw [hcls]; decide
  · rw [hcls]; decide
  · rw [hcls]; decide

/-- Concrete witness for claim C2, instantiated at the stdout the inner
script actually emits on a non-200 response. -/
theorem claim_C2_witness :
    classification "❌ MCP container API access issue" = [adjustLine] ∧
    adjustLine ∈ scriptLines (subprocessRun probeTimeout
      (.finishes 1 "❌ MCP container API access issue" "" 0)) ∧
    configuredLine1 ∉ classification "❌ MCP container API access issue" ∧
    configuredLine2 ∉ classification "❌ MCP container API access issue" ∧
    configuredLine3 ∉ classification "❌ MCP container API access issue" :=
  claim_C2_adjustment_summary 1 "❌ MCP container API access issue" "" 0
    (by decide) (by decide)

/-- Claim C3: for every run in which the subprocess exceeds the 30-unit
timeout, `subprocess.run` raises the timeout condition; the script then
prints exactly the timeout message for that outcome (its full output is
the banner, the attempt line, the timeout message, and the closing
checklist), and no "configured" confirmation line and no "needs
adjustment" line appears anywhere in the output. -/
theorem claim_C3_timeout_message (t : Nat) (out err : String) (code : Int)
    (hT : probeTimeout < t) :
    subprocessRun probeTimeout (.finishes t out err code) = ProbeOutcome.timeout ∧
    scriptLines ProbeOutcome.timeout =
      [headerLine, attemptLine, timeoutLine] ++ nextStepsLines ∧
    configuredLine1 ∉ scriptLines ProbeOutcome.timeout ∧
    configuredLine2 ∉ scriptLines ProbeOutcome.timeout ∧
    configuredLine3 ∉ scriptLines ProbeOutcome.timeout ∧
    adjustLine ∉ scriptLines ProbeOutcome.timeout := by
  refine ⟨?_, by decide, by decide, by decide, by decide, by decide⟩
  simp [subprocessRun, Nat.not_le.mpr hT]

/-- Concrete witness for claim C3, at a run taking 31 time units. -/
theorem claim_C3_witness :
    subprocessRun probeTimeout (.finishes 31 "" "" 0) = ProbeOutcome.timeout ∧
    scriptLines ProbeOutcome.timeout =
      [headerLine, attemptLine, timeoutLine] ++ nextStepsLines ∧
    configuredLine1 ∉ scriptLines ProbeOutcome.timeout ∧
    configuredLine2 ∉ scriptLines ProbeOutcome.timeout ∧
    configuredLine3 ∉ scriptLines ProbeOutcome.timeout ∧
    adjustLine ∉ scriptLines ProbeOutcome.timeout :=
  claim_C3_timeout_message 31 "" "" 0 (by decide)

/-- Claim C4: for every run in which the launch raises a non-timeout
error, the error's message text appears in the printed output inside the
`💥 Error: <message>` line (the message is a substring of that printed
line, which the output contains), and none of the "configured"
confirmation lines nor the "needs adjustment" line is printed. -/
theorem claim_C4_error_message (msg : String) :
    errorLine msg ∈ scriptLines (subprocessRun probeTimeout (.raises msg)) ∧
    strOccurs msg (errorLine msg) = true ∧
    configuredLine1 ∉ scriptLines (subprocessRun probeTimeout (.raises msg)) ∧
    configuredLine2 ∉ scriptLines (subprocessRun probeTimeout (.raises msg)) ∧
    configuredLine3 ∉ scriptLines (subprocessRun probeTimeout (.raises msg)) ∧
    adjustLine ∉ scriptLines (subprocessRun probeTimeout (.raises msg)) := by
  have hls : scriptLines (subprocessRun probeTimeout (.raises msg)) =
      headerLine :: attemptLine :: errorLine msg :: nextStepsLines := rfl
  refine ⟨?_, strOccurs_errorLine msg, ?_, ?_, ?_, ?_⟩
  · rw [hls]
    exact List.mem_cons_of_mem _ (List.mem_cons_of_mem _ (List.mem_cons_self _ _))
  · rw [hls]
    exact notMem_errorList msg _ (by decide) (by decide) (by decide) (by decide)
  · rw [hls]
    exact notMem_errorList msg _ (by decide) (by decide) (by decide) (by decide)
  · rw [hls]
    exact notMem_errorList msg _ (by decide) (by decide) (by decide) (by decide)
  · rw [hls]
    exact notMem_errorList msg _ (by decide) (by decide) (by decide) (by decide)

/-- Claim C5: for every outcome of the probe, the fixed 3-line "Next
Steps" checklist (together with its heading line) is printed, and it
comes after every other printed line: the output is some outcome-specific
lines followed by the closing block. -/
theorem claim_C5_checklist_last (o : ProbeOutcome) :
    checklistLines.length = 3 ∧
    ∃ pre, scriptLines o = pre ++ ("\n📋 Next Steps:" :: checklistLines) :=
  ⟨rfl, headerLine :: tryBlockLines o, rfl⟩

/-- Claim C6: on every outcome the script converts the subprocess result
(or raised condition) into printed text only, always reaches the closing
checklist, and terminates with exit status 0; no path yields a different
exit status. -/
theorem claim_C6_always_completes (o : ProbeOutcome) :
    scriptExit o = 0 ∧ ∃ pre, scriptLines o = pre ++ nextStepsLines :=
  ⟨rfl, headerLine :: tryBlockLines o, rfl⟩

/-- Claim C7: the constructed `workflow_data` payload has exactly two
nodes, named "Content Webhook" and "MCP Analysis" in that order, at
positions (240, 300) and (460, 300) respectively. -/
theorem claim_C7_payload_nodes :
    workflow_data.nodes.length = 2 ∧
    workflow_data.nodes.map NodeSpec.name = ["Content Webhook", "MCP Analysis"] ∧
    workflow_data.nodes.map NodeSpec.position = [(240, 300), (460, 300)] := by
  decide

set_option maxRecDepth 4096 in
/-- Claim C8: serializing the constructed `workflow_data` payload to JSON
and parsing it back yields the original value (the build → serialize →
parse round-trip is lossless). -/
theorem claim_C8_roundtrip :
    WorkflowDefinition.fromJson workflow_data.toJson = some workflow_data := by
  decide

/-- Claim C9: the constructed payload is never consumed: the printed
lines and the exit status of the run are the same for every payload
value, so they coincide with those of the script with the construction
removed. -/
theorem claim_C9_payload_unused (w v : WorkflowDefinition) (o : ProbeOutcome) :
    scriptRun w o = scriptRun v o :=
  rfl

/-- Claim C10: the classification branch is determined solely by whether
"✅" occurs in the captured stdout: any two completed runs with the same
stdout print the same classification block, whatever their stderr and
return codes are, and the stderr only controls the presence of the
`⚠️ Errors:` block, which is printed exactly when stderr is non-empty. -/
theorem claim_C10_branch_from_stdout (out err err' : String) (code code' : Int) :
    ∃ cls,
      ((strOccurs checkMark out = true ∧
          cls = [configuredLine1, configuredLine2, configuredLine3]) ∨
        (strOccurs checkMark out = false ∧ cls = [adjustLine])) ∧
      scriptLines (ProbeOutcome.completed out err code) =
        [headerLine, attemptLine, outputHeaderLine, out]
          ++ (if err = "" then [] else [errHeaderLine, err])
          ++ cls ++ nextStepsLines ∧
      scriptLines (ProbeOutcome.completed out err' code') =
        [headerLine, attemptLine, outputHeaderLine, out]
          ++ (if err' = "" then [] else [errHeaderLine, err'])
          ++ cls ++ nextStepsLines := by
  refine ⟨classification out, ?_, ?_, ?_⟩
  · cases hb : strOccurs checkMark out with
    | true => exact Or.inl ⟨rfl, by simp [classification, hb]⟩
    | false => exact Or.inr ⟨rfl, by simp [classification, hb]⟩
  · simp [scriptLines, scriptRun, tryBlockLines]
  · simp [scriptLines, scriptRun, tryBlockLines]
